import Mathlib

/-
  Verification of the VulkanRust repository (a minimal Vulkan triangle
  renderer written in Rust) against its natural-language specification.

  The development shallowly embeds the decision logic of src/main.rs and
  src/math3d.rs: pure selection functions become Lean functions over lists,
  fallible operations become Except values parameterised by the results the
  external Vulkan calls would return, and the straight-line setup/teardown
  sequences become explicit lists of stage labels, one label per call in
  the source.  Machine integers are modelled as Nat (u32/usize values) and
  Int (VkResult values); f32 constants in the vertex data are exact dyadic
  rationals, so they are modelled as Rat.
-/

namespace VulkanRust

/-! Vulkan API constants.  The repository compiles against bindgen-generated
    bindings (not part of src/); the numeric values below are the standard
    values from the Vulkan headers (vulkan_core.h). -/

/-- VkResult value VK_SUCCESS. -/
def VK_SUCCESS : Int := 0

/-- VkFormat value VK_FORMAT_B8G8R8A8_SRGB. -/
def VK_FORMAT_B8G8R8A8_SRGB : Nat := 50

/-- VkFormat value VK_FORMAT_R32G32_SFLOAT. -/
def VK_FORMAT_R32G32_SFLOAT : Nat := 103

/-- VkFormat value VK_FORMAT_R32G32B32_SFLOAT. -/
def VK_FORMAT_R32G32B32_SFLOAT : Nat := 106

/-- VkColorSpaceKHR value VK_COLOR_SPACE_SRGB_NONLINEAR_KHR. -/
def VK_COLOR_SPACE_SRGB_NONLINEAR_KHR : Nat := 0

/-- VkPresentModeKHR value VK_PRESENT_MODE_MAILBOX_KHR. -/
def VK_PRESENT_MODE_MAILBOX_KHR : Nat := 1

/-- VkPresentModeKHR value VK_PRESENT_MODE_FIFO_KHR. -/
def VK_PRESENT_MODE_FIFO_KHR : Nat := 2

/-- Largest u32 value, u32 MAX in Rust. -/
def U32_MAX : Nat := 4294967295

/-! Setup and teardown stage labels.  One label per program object (or
    group of objects the spec treats as one stage).  They name the
    initialization stages of VulkanApp in src/main.rs. -/

/-- Stage labels for the objects VulkanApp creates and destroys. -/
inductive Stage where
  | window
  | vkInstance
  | debugMessenger
  | surface
  | physicalDevice
  | logicalDevice
  | swapChain
  | imageViews
  | renderPass
  | graphicsPipeline
  | framebuffers
  | commandPool
  | commandBuffer
  | vertexBuffer
  | syncObjects
deriving DecidableEq, Repr

/-- The order of the setup stages as the program runs them: main calls
    init_glfw (which creates the window) and then init_vulkan, and
    init_vulkan (src/main.rs lines 268 to 289) runs, in textual order:
    create_instance, setup_debug_messenger, create_surface,
    pick_physical_device, create_logical_device, create_swap_chain,
    create_image_views, create_render_pass, create_graphics_pipeline,
    create_framebuffers, create_command_pool, create_vertex_buffer,
    create_command_buffer, create_sync_objects. -/
def setup_order : List Stage :=
  [ .window            -- init_glfw: glfwCreateWindow
  , .vkInstance        -- create_instance
  , .debugMessenger    -- setup_debug_messenger
  , .surface           -- create_surface
  , .physicalDevice    -- pick_physical_device
  , .logicalDevice     -- create_logical_device
  , .swapChain         -- create_swap_chain
  , .imageViews        -- create_image_views
  , .renderPass        -- create_render_pass
  , .graphicsPipeline  -- create_graphics_pipeline
  , .framebuffers      -- create_framebuffers
  , .commandPool       -- create_command_pool
  , .vertexBuffer      -- create_vertex_buffer
  , .commandBuffer     -- create_command_buffer
  , .syncObjects ]     -- create_sync_objects

/-- Modelled from the spec: the initialization order the specification
    asserts (spec.md section 2), with the command buffer created before
    the vertex buffer.  This definition follows the words of the spec and
    of claim C1, to be compared with setup_order which follows the code. -/
def spec_setup_order : List Stage :=
  [ .window, .vkInstance, .debugMessenger, .surface, .physicalDevice
  , .logicalDevice, .swapChain, .imageViews, .renderPass, .graphicsPipeline
  , .framebuffers, .commandPool, .commandBuffer, .vertexBuffer
  , .syncObjects ]

/-- The order in which the Drop implementation of VulkanApp
    (src/main.rs lines 1765 to 1876) destroys objects, at the stage
    granularity of the spec, assuming every handle is non-null and
    validation layers are enabled.  In source order: cleanup_swap_chain
    destroys the framebuffers, then the image views, then the swapchain;
    then Drop destroys the vertex buffer and frees its memory, destroys
    the in-flight fence and the two semaphores (the sync objects), the
    command pool, the graphics pipeline and its pipeline layout, the
    render pass, the logical device, the debug messenger, the surface,
    the instance, and finally the window.  No call ever destroys the
    command buffer individually (it is freed together with its pool). -/
def drop_order : List Stage :=
  [ .framebuffers      -- cleanup_swap_chain: vkDestroyFramebuffer loop
  , .imageViews        -- cleanup_swap_chain: vkDestroyImageView loop
  , .swapChain         -- cleanup_swap_chain: vkDestroySwapchainKHR
  , .vertexBuffer      -- vkDestroyBuffer and vkFreeMemory
  , .syncObjects       -- vkDestroyFence and the two vkDestroySemaphore calls
  , .commandPool       -- vkDestroyCommandPool
  , .graphicsPipeline  -- vkDestroyPipeline and vkDestroyPipelineLayout
  , .renderPass        -- vkDestroyRenderPass
  , .logicalDevice     -- vkDestroyDevice
  , .debugMessenger    -- vkDestroyDebugUtilsMessengerEXT via proc address
  , .surface           -- vkDestroySurfaceKHR
  , .vkInstance        -- vkDestroyInstance
  , .window ]          -- glfwDestroyWindow

/-- Modelled from the spec: the teardown order claim C8 asserts, namely
    the exact reverse of the claimed creation order (sync objects,
    command buffer, vertex buffer, command pool, framebuffers, pipeline,
    render pass, image views, swapchain, logical device, debug messenger,
    surface, instance, window). -/
def spec_drop_order : List Stage :=
  [ .syncObjects, .commandBuffer, .vertexBuffer, .commandPool
  , .framebuffers, .graphicsPipeline, .renderPass, .imageViews
  , .swapChain, .logicalDevice, .debugMessenger, .surface
  , .vkInstance, .window ]

/-! The swap-surface-format chooser, src/main.rs lines 737 to 754. -/

/-- Entry of the list of formats supported by a surface
    (VkSurfaceFormatKHR, fields used by the program). -/
structure VkSurfaceFormatKHR where
  format : Nat
  colorSpace : Nat
deriving DecidableEq, Repr

/-- The loop condition of choose_swap_surface_format: the format is
    B8G8R8A8_SRGB and the color space is SRGB_NONLINEAR. -/
def isPreferredFormat (f : VkSurfaceFormatKHR) : Bool :=
  f.format == VK_FORMAT_B8G8R8A8_SRGB &&
    f.colorSpace == VK_COLOR_SPACE_SRGB_NONLINEAR_KHR

/-- The enumerated for loop of choose_swap_surface_format: return the
    index of the first preferred format, if any. -/
def findFormatIdx : Nat → List VkSurfaceFormatKHR → Option Nat
  | _, [] => none
  | idx, f :: rest =>
    if isPreferredFormat f then some idx else findFormatIdx (idx + 1) rest

/-- VulkanApp.choose_swap_surface_format: none when the list is empty,
    otherwise the index of the first preferred format, defaulting to
    index 0 when no format is preferred. -/
def choose_swap_surface_format (available : List VkSurfaceFormatKHR) :
    Option Nat :=
  if available.isEmpty then none
  else
    match findFormatIdx 0 available with
    | some idx => some idx
    | none => some 0

/-! The present-mode chooser, src/main.rs lines 756 to 769.  The body
    ignores its argument (the scan over the list is commented out in the
    source) and always returns FIFO. -/

/-- VulkanApp.choose_swap_present_mode: always FIFO; the argument is
    unused, exactly as in the source where the parameter is named with a
    leading underscore and the loop over it is commented out. -/
def choose_swap_present_mode (_availablePresentModes : List Nat) : Nat :=
  VK_PRESENT_MODE_FIFO_KHR

/-! Physical device selection, src/main.rs lines 396 to 433.  Device
    handles are opaque pointers in the source; they are modelled as Nat
    with 0 standing for the null pointer (the initial value of the
    physical_device field set by VulkanApp.new).  The suitability test
    is_device_suitable performs external Vulkan queries and can itself
    fail, so it is passed in as a function into Except. -/

/-- The for loop of pick_physical_device: starting from the null
    physical_device field, scan the enumerated handles and stop at the
    first one the suitability test accepts, propagating errors of the
    test itself (the question-mark operator in the source). -/
def scanDevices (suitable : Nat → Except String Bool) :
    List Nat → Except String Nat
  | [] => .ok 0
  | d :: rest =>
    match suitable d with
    | .error e => .error e
    | .ok true => .ok d
    | .ok false => scanDevices suitable rest

/-- VulkanApp.pick_physical_device: error when the enumerated count is
    zero, otherwise scan for the first suitable device and error when the
    physical_device field is still null after the scan. -/
def pick_physical_device (suitable : Nat → Except String Bool)
    (devs : List Nat) : Except String Nat :=
  if devs.length = 0 then
    .error "Failed to find GPUs with Vulkan support!"
  else
    match scanDevices suitable devs with
    | .error e => .error e
    | .ok pd =>
      if pd = 0 then .error "Failed to find a suitable GPU!" else .ok pd

/-! The swap-extent chooser, src/main.rs lines 771 to 801. -/

/-- Width/height pair (VkExtent2D). -/
structure VkExtent2D where
  width : Nat
  height : Nat
deriving DecidableEq, Repr

/-- The fields of VkSurfaceCapabilitiesKHR that choose_swap_extent
    reads. -/
structure VkSurfaceCapabilitiesKHR where
  currentExtent : VkExtent2D
  minImageExtent : VkExtent2D
  maxImageExtent : VkExtent2D
deriving DecidableEq, Repr

/-- Rust u32 clamp: none models the panic Rust raises when the lower
    bound exceeds the upper bound, otherwise the value moved into the
    inclusive range. -/
def rustClamp (v lo hi : Nat) : Option Nat :=
  if lo ≤ hi then
    some (if v < lo then lo else if hi < v then hi else v)
  else none

/-- VulkanApp.choose_swap_extent: return currentExtent unchanged when its
    width differs from u32 MAX, otherwise clamp the window framebuffer
    size (queried from GLFW, here passed in as fbWidth and fbHeight, the
    u32 values after the cast from i32) componentwise into the inclusive
    range given by minImageExtent and maxImageExtent. -/
def choose_swap_extent (caps : VkSurfaceCapabilitiesKHR)
    (fbWidth fbHeight : Nat) : Option VkExtent2D :=
  if caps.currentExtent.width ≠ U32_MAX then
    some caps.currentExtent
  else do
    let w ← rustClamp fbWidth caps.minImageExtent.width
      caps.maxImageExtent.width
    let h ← rustClamp fbHeight caps.minImageExtent.height
      caps.maxImageExtent.height
    some ⟨w, h⟩

/-! The vertex record and its layout, src/math3d.rs.  A vertex is a
    2-component f32 position and a 3-component f32 RGB color.  Every f32
    constant the program stores in a vertex is a small dyadic rational,
    represented exactly by Rat. -/

/-- The vertex record of src/math3d.rs: pos is a Vec2f, color a Vec3f. -/
structure Vertex where
  pos : Rat × Rat
  color : Rat × Rat × Rat
deriving DecidableEq, Repr

/-- Byte size of f32 (the Rust layout fact size_of f32 = 4). -/
def SIZEOF_F32 : Nat := 4

/-- Byte size of a 2-element f32 array, size_of Vec2f = 8. -/
def SIZEOF_VEC2F : Nat := 2 * SIZEOF_F32

/-- Alignment of a 3-element f32 array, align_of Vec3f = 4. -/
def ALIGNOF_VEC3F : Nat := 4

/-- Byte size of the repr(C) Vertex struct: the position at offset 0
    (8 bytes) followed by the color (12 bytes) with no padding, 20. -/
def SIZEOF_VERTEX : Nat := 20

/-- Vertex.pos_offset: constantly 0. -/
def pos_offset : Nat := 0

/-- The while loop in Vertex.color_offset: increment the offset until it
    is a multiple of the alignment.  The loop is modelled with explicit
    fuel so that a non-terminating run is representable as none. -/
def color_offset_loop (alignment : Nat) : Nat → Nat → Option Nat
  | 0, _ => none
  | fuel + 1, offset =>
    if offset % alignment ≠ 0 then color_offset_loop alignment fuel (offset + 1)
    else some offset

/-- Vertex.color_offset: start from size_of Vec2f and round up to the
    alignment of Vec3f.  The fuel (alignment plus one) covers the at most
    alignment minus one increments a terminating run can take. -/
def color_offset : Option Nat :=
  color_offset_loop ALIGNOF_VEC3F (ALIGNOF_VEC3F + 1) SIZEOF_VEC2F

/-- The fields of VkVertexInputAttributeDescription the program sets. -/
structure VkVertexInputAttributeDescription where
  binding : Nat
  location : Nat
  format : Nat
  offset : Nat
deriving DecidableEq, Repr

/-- Vertex.get_attribute_descriptions: two attribute descriptions, the
    position at location 0 with format R32G32_SFLOAT and offset
    pos_offset, the color at location 1 with format R32G32B32_SFLOAT and
    offset color_offset.  The value is none only if the color_offset loop
    runs out of fuel. -/
def get_attribute_descriptions :
    Option (VkVertexInputAttributeDescription ×
      VkVertexInputAttributeDescription) :=
  color_offset.map fun co =>
    (⟨0, 0, VK_FORMAT_R32G32_SFLOAT, pos_offset⟩,
     ⟨0, 1, VK_FORMAT_R32G32B32_SFLOAT, co⟩)

/-- The hardcoded triangle constant VERTICES, src/main.rs lines 30
    to 43. -/
def VERTICES : List Vertex :=
  [ ⟨(0, -(1 : Rat) / 2), (1, 0, 0)⟩
  , ⟨((1 : Rat) / 2, (1 : Rat) / 2), (0, 1, 0)⟩
  , ⟨(-(1 : Rat) / 2, (1 : Rat) / 2), (0, 0, 1)⟩ ]

/-- Serialization of one repr(C) vertex into its five consecutive f32
    words: pos x, pos y, color r, color g, color b. -/
def vertexWords (v : Vertex) : List Rat :=
  [v.pos.1, v.pos.2, v.color.1, v.color.2.1, v.color.2.2]

/-- Read the f32 word of the mapped memory at a byte offset (the memory
    is a list of 4-byte words). -/
def readWord (mem : List Rat) (byteOffset : Nat) : Option Rat :=
  mem.get? (byteOffset / SIZEOF_F32)

/-- Decode the vertex stored at index i of the mapped vertex buffer,
    using the repr(C) layout: the record starts at i times size_of
    Vertex, the position at byte offset posOff within it and the color at
    byte offset colOff. -/
def readVertex (mem : List Rat) (posOff colOff i : Nat) : Option Vertex := do
  let base := i * SIZEOF_VERTEX
  let px ← readWord mem (base + posOff)
  let py ← readWord mem (base + posOff + SIZEOF_F32)
  let cr ← readWord mem (base + colOff)
  let cg ← readWord mem (base + colOff + SIZEOF_F32)
  let cb ← readWord mem (base + colOff + 2 * SIZEOF_F32)
  pure ⟨(px, py), (cr, cg, cb)⟩

/-! Memory type selection, src/main.rs lines 1648 to 1676. -/

/-- The for loop of find_memory_type over the memoryTypes array (each
    entry is the propertyFlags field): accept the first index whose bit
    is set in the type filter and whose flags contain all requested
    properties. -/
def findMemGo (typeFilter properties : Nat) :
    Nat → List Nat → Except String Nat
  | _, [] => .error "Failed to find suitable memory type!"
  | idx, flags :: rest =>
    if typeFilter &&& (1 <<< idx) ≠ 0 &&
        (flags &&& properties == properties) then .ok idx
    else findMemGo typeFilter properties (idx + 1) rest

/-- VulkanApp.find_memory_type: error when physical_device is null,
    otherwise scan the memory types reported for the physical device. -/
def find_memory_type (physDeviceNull : Bool) (typeFilter properties : Nat)
    (memoryTypes : List Nat) : Except String Nat :=
  if physDeviceNull then
    .error "Cannot find memory type if physical_device is null!"
  else findMemGo typeFilter properties 0 memoryTypes

/-! Buffer creation, src/main.rs lines 1704 to 1762, and vertex buffer
    creation, lines 1611 to 1646.  Each external Vulkan call that returns
    a VkResult is modelled by the result value the call would produce,
    collected in an environment record; the embedding then mirrors which
    of those results the source checks. -/

/-- The results of the VkResult-returning Vulkan calls issued by
    create_buffer, in call order. -/
structure BufferCallResults where
  createBuffer : Int
  allocateMemory : Int
  bindBufferMemory : Int
deriving DecidableEq, Repr

/-- The results of the VkResult-returning Vulkan calls issued by
    create_vertex_buffer: those of the inner create_buffer call plus the
    result of vkMapMemory. -/
structure VertexBufferCallResults where
  buffer : BufferCallResults
  mapMemory : Int
deriving DecidableEq, Repr

/-- VulkanApp.create_buffer: check the vkCreateBuffer result, find a
    memory type (propagating its error), check the vkAllocateMemory
    result, then call vkBindBufferMemory.  The source does not inspect
    the result of vkBindBufferMemory, so env.bindBufferMemory is unread
    here, exactly as in the source. -/
def create_buffer (env : BufferCallResults) (physDeviceNull : Bool)
    (memTypeBits properties : Nat) (memoryTypes : List Nat) :
    Except String Unit :=
  if env.createBuffer ≠ VK_SUCCESS then .error "Failed to create buffer!"
  else
    match find_memory_type physDeviceNull memTypeBits properties
        memoryTypes with
    | .error e => .error e
    | .ok _memoryTypeIndex =>
      if env.allocateMemory ≠ VK_SUCCESS then
        .error "Failed to allocate buffer memory"
      else .ok ()

/-- VkMemoryPropertyFlagBits HOST_VISIBLE (2) combined with
    HOST_COHERENT (4), the properties create_vertex_buffer requests. -/
def HOST_VISIBLE_COHERENT : Nat := 6

/-- VulkanApp.create_vertex_buffer: create a host-visible host-coherent
    buffer sized for VERTICES via create_buffer (propagating its error),
    map its memory, write the VERTICES array through the mapped pointer,
    and unmap.  The returned list is the mapped memory after the write:
    the repr(C) serialization of VERTICES.  The source does not inspect
    the result of vkMapMemory, so env.mapMemory is unread here, exactly
    as in the source. -/
def create_vertex_buffer (env : VertexBufferCallResults)
    (physDeviceNull : Bool) (memTypeBits : Nat) (memoryTypes : List Nat) :
    Except String (List Rat) :=
  match create_buffer env.buffer physDeviceNull memTypeBits
      HOST_VISIBLE_COHERENT memoryTypes with
  | .error e => .error e
  | .ok _bufAndMem => .ok (VERTICES.flatMap vertexWords)

/-- VulkanApp.create_instance: the single VkResult-returning call is
    vkCreateInstance, whose result is checked. -/
def create_instance (createInstanceResult : Int) : Except String Unit :=
  if createInstanceResult ≠ VK_SUCCESS then
    .error "Failed to create Vulkan instance"
  else .ok ()

/-! Command buffer recording, src/main.rs lines 1345 to 1423.  The
    commands recorded into the command buffer are modelled as a trace. -/

/-- The commands record_command_buffer can issue, in the source's
    vocabulary; draw carries the four arguments of vkCmdDraw. -/
inductive Cmd where
  | beginRenderPass
  | bindPipeline
  | bindVertexBuffers
  | setViewport
  | setScissor
  | draw (vertexCount instanceCount firstVertex firstInstance : Nat)
  | endRenderPass
deriving DecidableEq, Repr

/-- Whether a command is a draw command. -/
def Cmd.isDraw : Cmd → Bool
  | .draw _ _ _ _ => true
  | _ => false

/-- VulkanApp.record_command_buffer: check the vkBeginCommandBuffer
    result; record begin render pass, bind pipeline, bind vertex buffers,
    set viewport, set scissor, one vkCmdDraw with vertex count equal to
    the length of VERTICES, instance count 1, first vertex 0 and first
    instance 0, and end render pass; then check the vkEndCommandBuffer
    result.  On success the value is the recorded trace. -/
def record_command_buffer (beginResult endResult : Int) :
    Except String (List Cmd) :=
  if beginResult ≠ VK_SUCCESS then
    .error "Failed to begin recording command buffer!"
  else
    let cmds : List Cmd :=
      [ .beginRenderPass, .bindPipeline, .bindVertexBuffers
      , .setViewport, .setScissor
      , .draw VERTICES.length 1 0 0
      , .endRenderPass ]
    if endResult ≠ VK_SUCCESS then
      .error "Failed to record command buffer!"
    else .ok cmds

/-! Theorems. -/

/-- C1, counterexample: the setup sequence does not follow the order the
    spec lists; in particular the vertex buffer is created before the
    command buffer, not after it. -/
theorem C1_counterexample :
    setup_order ≠ spec_setup_order ∧
    setup_order.indexOf Stage.vertexBuffer <
      setup_order.indexOf Stage.commandBuffer := by decide

/-- C1, amended: init_vulkan performs the initialization stages in the
    order the spec lists except that the vertex buffer is created before
    the command buffer; the actual order is the spec order with the
    entries at positions 12 and 13 swapped. -/
theorem C1_init_vulkan_order :
    setup_order =
      (spec_setup_order.set 12 Stage.vertexBuffer).set 13
        Stage.commandBuffer ∧
    setup_order.indexOf Stage.commandPool <
      setup_order.indexOf Stage.vertexBuffer := by decide

/-- C8, counterexample: the Drop implementation does not destroy objects
    in the exact reverse of the creation order claimed; moreover the
    command buffer is never individually destroyed. -/
theorem C8_counterexample :
    drop_order ≠ spec_drop_order ∧
    Stage.commandBuffer ∉ drop_order := by decide

/-- C8, amended: Drop first destroys the swapchain-dependent objects via
    cleanup_swap_chain (framebuffers, image views, swapchain), then the
    vertex buffer with its memory, the sync objects, the command pool,
    the graphics pipeline with its layout, the render pass, the logical
    device, the debug messenger, the surface, the instance and the
    window; no stage is destroyed twice, every destroyed stage was
    created, and the command buffer is not individually destroyed. -/
theorem C8_drop_order :
    drop_order =
      [ Stage.framebuffers, Stage.imageViews, Stage.swapChain
      , Stage.vertexBuffer, Stage.syncObjects, Stage.commandPool
      , Stage.graphicsPipeline, Stage.renderPass, Stage.logicalDevice
      , Stage.debugMessenger, Stage.surface, Stage.vkInstance
      , Stage.window ] ∧
    drop_order.Nodup ∧
    (∀ s ∈ drop_order, s ∈ setup_order) ∧
    Stage.commandBuffer ∉ drop_order := by decide

/-- C2, counterexample: choose_swap_present_mode does not return the
    first acceptable element of its input list; on the singleton list
    holding MAILBOX it returns FIFO, which is not an element of the list
    at all. -/
theorem C2_counterexample :
    choose_swap_present_mode [VK_PRESENT_MODE_MAILBOX_KHR] =
      VK_PRESENT_MODE_FIFO_KHR ∧
    VK_PRESENT_MODE_FIFO_KHR ∉ [VK_PRESENT_MODE_MAILBOX_KHR] := by decide

/-- C2, amended: choose_swap_present_mode ignores the enumerated list of
    available present modes (the scan over it is commented out in the
    source) and always returns VK_PRESENT_MODE_FIFO_KHR. -/
theorem C2_present_mode_always_fifo (modes : List Nat) :
    choose_swap_present_mode modes = VK_PRESENT_MODE_FIFO_KHR := rfl

/-- C6: every successfully recorded command buffer contains exactly one
    draw command, with vertex count equal to the length of VERTICES
    (which is 3), instance count 1, first vertex 0 and first instance
    0. -/
theorem C6_single_draw (beginResult endResult : Int) (cmds : List Cmd)
    (h : record_command_buffer beginResult endResult = .ok cmds) :
    cmds.filter Cmd.isDraw = [Cmd.draw VERTICES.length 1 0 0] ∧
    cmds.filter Cmd.isDraw = [Cmd.draw 3 1 0 0] ∧
    VERTICES.length = 3 := by
  unfold record_command_buffer at h
  split at h
  · cases h
  · split at h
    · cases h
    · cases h
      decide

/-- C6, witness: the theorem applied to a run where both the begin and
    the end call succeed. -/
theorem C6_single_draw_witness :
    List.filter Cmd.isDraw
        [ Cmd.beginRenderPass, Cmd.bindPipeline, Cmd.bindVertexBuffers
        , Cmd.setViewport, Cmd.setScissor
        , Cmd.draw VERTICES.length 1 0 0, Cmd.endRenderPass ] =
      [Cmd.draw VERTICES.length 1 0 0] ∧
    List.filter Cmd.isDraw
        [ Cmd.beginRenderPass, Cmd.bindPipeline, Cmd.bindVertexBuffers
        , Cmd.setViewport, Cmd.setScissor
        , Cmd.draw VERTICES.length 1 0 0, Cmd.endRenderPass ] =
      [Cmd.draw 3 1 0 0] ∧
    VERTICES.length = 3 :=
  C6_single_draw 0 0 _ rfl

/-- C10: the color_offset loop terminates (with any positive fuel
    budget) and returns 8, which is the smallest multiple of the
    alignment of Vec3f that is at least the size of Vec2f; pos_offset is
    0, and the two attribute descriptions carry offsets pos_offset and
    8. -/
theorem C10_offsets :
    (∀ fuel, 0 < fuel →
      color_offset_loop ALIGNOF_VEC3F fuel SIZEOF_VEC2F = some 8) ∧
    color_offset = some 8 ∧ pos_offset = 0 ∧
    8 % ALIGNOF_VEC3F = 0 ∧ SIZEOF_VEC2F ≤ 8 ∧
    (∀ m, m % ALIGNOF_VEC3F = 0 → SIZEOF_VEC2F ≤ m → 8 ≤ m) ∧
    get_attribute_descriptions =
      some (⟨0, 0, VK_FORMAT_R32G32_SFLOAT, pos_offset⟩,
            ⟨0, 1, VK_FORMAT_R32G32B32_SFLOAT, 8⟩) := by
  refine ⟨?_, by decide, by decide, by decide, by decide, ?_, by decide⟩
  · intro fuel hf
    cases fuel with
    | zero => exact absurd hf (by decide)
    | succ n =>
      simp [color_offset_loop, ALIGNOF_VEC3F, SIZEOF_VEC2F, SIZEOF_F32]
  · intro m _hmod hge
    exact le_trans (show (8 : Nat) ≤ SIZEOF_VEC2F by decide) hge

/-- C10, witness: the theorem applied with fuel 1 and with the multiple
    8 itself. -/
theorem C10_offsets_witness :
    color_offset_loop ALIGNOF_VEC3F 1 SIZEOF_VEC2F = some 8 ∧
    (8 : Nat) ≤ 8 :=
  ⟨C10_offsets.1 1 (by decide),
   C10_offsets.2.2.2.2.2.1 8 (by decide) (by decide)⟩

/-- Helper: scanning with a pure (never failing) suitability predicate
    returns the first device satisfying the predicate, or the null handle
    when there is none. -/
theorem scanDevices_pure (p : Nat → Bool) (devs : List Nat) :
    scanDevices (fun d => .ok (p d)) devs = .ok ((devs.find? p).getD 0) := by
  induction devs with
  | nil => rfl
  | cons d rest ih =>
    simp only [scanDevices, List.find?_cons]
    cases hp : p d
    · simpa [hp] using ih
    · simp [hp]

/-- C3: when the suitability test is a pure predicate and the enumerated
    handles are non-null, pick_physical_device errors with the
    no-GPUs message on an empty enumeration, returns the first suitable
    device in enumeration order when one exists, and errors with the
    no-suitable-GPU message when none is suitable. -/
theorem C3_pick_physical_device (p : Nat → Bool) (devs : List Nat)
    (hnn : ∀ d ∈ devs, d ≠ 0) :
    (devs = [] →
      pick_physical_device (fun d => .ok (p d)) devs =
        .error "Failed to find GPUs with Vulkan support!") ∧
    (∀ d, devs.find? p = some d →
      pick_physical_device (fun d => .ok (p d)) devs = .ok d) ∧
    (devs ≠ [] → devs.find? p = none →
      pick_physical_device (fun d => .ok (p d)) devs =
        .error "Failed to find a suitable GPU!") := by
  refine ⟨?_, ?_, ?_⟩
  · intro h; subst h; rfl
  · intro d hd
    have hmem := List.mem_of_find?_eq_some hd
    have hlen : devs.length ≠ 0 := by
      intro h
      rw [List.length_eq_zero] at h
      subst h
      simp at hmem
    unfold pick_physical_device
    rw [scanDevices_pure, hd]
    simp [hlen, hnn d hmem]
  · intro hne hnone
    have hlen : devs.length ≠ 0 := by
      intro h
      exact hne (List.length_eq_zero.mp h)
    unfold pick_physical_device
    rw [scanDevices_pure, hnone]
    simp [hlen]

/-- C3, witness: on the enumeration 1, 2, 3 where only the handle 2 is
    suitable, the handle 2 is picked. -/
theorem C3_pick_physical_device_witness :
    pick_physical_device (fun d => .ok (d == 2)) [1, 2, 3] = .ok 2 :=
  (C3_pick_physical_device (fun d => d == 2) [1, 2, 3]
    (by decide)).2.1 2 (by decide)

/-- Helper: the enumerated loop of choose_swap_surface_format computes
    List.findIdx? with a running start index. -/
theorem findFormatIdx_eq (l : List VkSurfaceFormatKHR) (k : Nat) :
    findFormatIdx k l = List.findIdx? isPreferredFormat l k := by
  induction l generalizing k with
  | nil => simp [findFormatIdx, List.findIdx?_nil]
  | cons f rest ih =>
    simp only [findFormatIdx, List.findIdx?_cons]
    cases hp : isPreferredFormat f <;> simp [hp, ih]

/-- C4: choose_swap_surface_format returns none exactly on the empty
    list, and on a non-empty list returns the index of the first format
    whose format is B8G8R8A8_SRGB and whose color space is
    SRGB_NONLINEAR, defaulting to index 0 when no format qualifies. -/
theorem C4_choose_swap_surface_format
    (available : List VkSurfaceFormatKHR) :
    (choose_swap_surface_format available = none ↔ available = []) ∧
    (available ≠ [] →
      choose_swap_surface_format available =
        some ((List.findIdx? isPreferredFormat available).getD 0)) := by
  constructor
  · constructor
    · intro h
      unfold choose_swap_surface_format at h
      split at h
      · exact List.isEmpty_iff.mp (by assumption)
      · split at h <;> cases h
    · intro h; subst h; rfl
  · intro hne
    have hemp : available.isEmpty = false := by
      cases available with
      | nil => exact absurd rfl hne
      | cons f rest => rfl
    unfold choose_swap_surface_format
    rw [hemp]
    rw [findFormatIdx_eq]
    cases h : List.findIdx? isPreferredFormat available 0 <;> simp [h]

/-- C4, witness: on a two-element list whose second entry is the
    preferred format, the chosen index is the index of the first
    preferred entry. -/
theorem C4_choose_swap_surface_format_witness :
    choose_swap_surface_format
        ([⟨0, 0⟩, ⟨50, 0⟩] : List VkSurfaceFormatKHR) =
      some ((List.findIdx? isPreferredFormat
        ([⟨0, 0⟩, ⟨50, 0⟩] : List VkSurfaceFormatKHR)).getD 0) :=
  (C4_choose_swap_surface_format _).2 (by decide)

/-- Helper: when the lower bound does not exceed the upper bound, the
    Rust clamp succeeds and its value lies in the inclusive range. -/
theorem rustClamp_spec (v lo hi : Nat) (hle : lo ≤ hi) :
    ∃ w, rustClamp v lo hi = some w ∧ lo ≤ w ∧ w ≤ hi := by
  unfold rustClamp
  rw [if_pos hle]
  refine ⟨_, rfl, ?_, ?_⟩ <;> split_ifs <;> omega

/-- C9: choose_swap_extent returns currentExtent unchanged whenever its
    width differs from u32 MAX; otherwise (given the Vulkan guarantee
    that each minimum image extent does not exceed the corresponding
    maximum) it returns the framebuffer size clamped componentwise into
    the inclusive range between minImageExtent and maxImageExtent, so
    the returned extent lies within those bounds. -/
theorem C9_choose_swap_extent (caps : VkSurfaceCapabilitiesKHR)
    (fbWidth fbHeight : Nat) :
    (caps.currentExtent.width ≠ U32_MAX →
      choose_swap_extent caps fbWidth fbHeight =
        some caps.currentExtent) ∧
    (caps.currentExtent.width = U32_MAX →
      caps.minImageExtent.width ≤ caps.maxImageExtent.width →
      caps.minImageExtent.height ≤ caps.maxImageExtent.height →
      ∃ w h,
        rustClamp fbWidth caps.minImageExtent.width
          caps.maxImageExtent.width = some w ∧
        rustClamp fbHeight caps.minImageExtent.height
          caps.maxImageExtent.height = some h ∧
        choose_swap_extent caps fbWidth fbHeight = some ⟨w, h⟩ ∧
        caps.minImageExtent.width ≤ w ∧ w ≤ caps.maxImageExtent.width ∧
        caps.minImageExtent.height ≤ h ∧
        h ≤ caps.maxImageExtent.height) := by
  constructor
  · intro h
    unfold choose_swap_extent
    rw [if_pos h]
  · intro h hw hh
    obtain ⟨w, hw1, hw2, hw3⟩ :=
      rustClamp_spec fbWidth caps.minImageExtent.width
        caps.maxImageExtent.width hw
    obtain ⟨hgt, hh1, hh2, hh3⟩ :=
      rustClamp_spec fbHeight caps.minImageExtent.height
        caps.maxImageExtent.height hh
    refine ⟨w, hgt, hw1, hh1, ?_, hw2, hw3, hh2, hh3⟩
    unfold choose_swap_extent
    rw [if_neg (by simp [h]), hw1, hh1]
    rfl

/-- C9, witness: the theorem applied to a capabilities record with a
    definite current extent, and to one with the u32 MAX sentinel and
    the bounds 10 to 20. -/
theorem C9_choose_swap_extent_witness :
    choose_swap_extent ⟨⟨100, 200⟩, ⟨0, 0⟩, ⟨4096, 4096⟩⟩ 640 480 =
      some ⟨100, 200⟩ ∧
    ∃ w h,
      rustClamp 640 10 20 = some w ∧
      rustClamp 480 10 20 = some h ∧
      choose_swap_extent ⟨⟨U32_MAX, 0⟩, ⟨10, 10⟩, ⟨20, 20⟩⟩ 640 480 =
        some ⟨w, h⟩ ∧
      10 ≤ w ∧ w ≤ 20 ∧ 10 ≤ h ∧ h ≤ 20 :=
  ⟨(C9_choose_swap_extent ⟨⟨100, 200⟩, ⟨0, 0⟩, ⟨4096, 4096⟩⟩
      640 480).1 (by decide),
   (C9_choose_swap_extent ⟨⟨U32_MAX, 0⟩, ⟨10, 10⟩, ⟨20, 20⟩⟩
      640 480).2 rfl (by decide) (by decide)⟩

/-- C5, counterexample: a run of create_vertex_buffer in which the
    vkBindBufferMemory call returns -7 and the vkMapMemory call returns
    -5 (both failures) still returns Ok, because the source never
    inspects those two results. -/
theorem C5_counterexample :
    create_vertex_buffer ⟨⟨0, 0, -7⟩, -5⟩ false 1 [6] =
      .ok (VERTICES.flatMap vertexWords) ∧
    (⟨⟨0, 0, -7⟩, -5⟩ : VertexBufferCallResults).buffer.bindBufferMemory
      ≠ VK_SUCCESS ∧
    (⟨⟨0, 0, -7⟩, -5⟩ : VertexBufferCallResults).mapMemory ≠
      VK_SUCCESS :=
  ⟨rfl, by decide, by decide⟩

/-- C5, amended: the results of the creation and allocation calls made
    during setup are checked, so create_instance and create_buffer
    succeed exactly when every checked call returns VK_SUCCESS, and
    create_vertex_buffer succeeds exactly when its inner create_buffer
    does; but the results of vkBindBufferMemory (in create_buffer) and
    vkMapMemory (in create_vertex_buffer) are not checked: changing them
    does not change the outcome at all. -/
theorem C5_checked_results :
    (∀ r : Int, (create_instance r).isOk = true ↔ r = VK_SUCCESS) ∧
    (∀ (env : BufferCallResults) (physNull : Bool)
        (bits props : Nat) (memTypes : List Nat),
      (create_buffer env physNull bits props memTypes).isOk = true ↔
        (env.createBuffer = VK_SUCCESS ∧
          (find_memory_type physNull bits props memTypes).isOk = true ∧
          env.allocateMemory = VK_SUCCESS)) ∧
    (∀ (env : VertexBufferCallResults) (physNull : Bool)
        (bits : Nat) (memTypes : List Nat),
      (create_vertex_buffer env physNull bits memTypes).isOk = true ↔
        (create_buffer env.buffer physNull bits HOST_VISIBLE_COHERENT
          memTypes).isOk = true) ∧
    (∀ (env : BufferCallResults) (physNull : Bool)
        (bits props : Nat) (memTypes : List Nat) (r : Int),
      create_buffer
          (BufferCallResults.mk env.createBuffer env.allocateMemory r)
          physNull bits props memTypes =
        create_buffer env physNull bits props memTypes) ∧
    (∀ (env : VertexBufferCallResults) (physNull : Bool)
        (bits : Nat) (memTypes : List Nat) (r : Int),
      create_vertex_buffer (VertexBufferCallResults.mk env.buffer r)
          physNull bits memTypes =
        create_vertex_buffer env physNull bits memTypes) := by
  refine ⟨?_, ?_, ?_, ?_, ?_⟩
  · intro r
    by_cases h : r = VK_SUCCESS <;> simp [create_instance, h, Except.isOk, Except.toBool]
  · intro env physNull bits props memTypes
    by_cases h1 : env.createBuffer = VK_SUCCESS
    · cases h2 : find_memory_type physNull bits props memTypes with
      | error e => simp [create_buffer, h1, h2, Except.isOk, Except.toBool]
      | ok i =>
        by_cases h3 : env.allocateMemory = VK_SUCCESS <;>
          simp [create_buffer, h1, h2, h3, Except.isOk, Except.toBool]
    · simp [create_buffer, h1, Except.isOk, Except.toBool]
  · intro env physNull bits memTypes
    cases h : create_buffer env.buffer physNull bits
        HOST_VISIBLE_COHERENT memTypes <;>
      simp [create_vertex_buffer, h, Except.isOk, Except.toBool]
  · intro env physNull bits props memTypes r
    rfl
  · intro env physNull bits memTypes r
    rfl

/-- C7: on any successful run, create_vertex_buffer writes the VERTICES
    constant verbatim into the mapped memory: there are exactly 3
    vertices, each serialized as 5 f32 words (a 2-component position
    followed, at the computed color offset, by a 3-component color), and
    decoding the mapped memory at the layout offsets returns exactly the
    vertices of VERTICES. -/
theorem C7_vertex_copy (env : VertexBufferCallResults) (physNull : Bool)
    (bits : Nat) (memTypes : List Nat) (mem : List Rat) (co : Nat)
    (hok : create_vertex_buffer env physNull bits memTypes = .ok mem)
    (hco : color_offset = some co) :
    VERTICES.length = 3 ∧ mem.length = VERTICES.length * 5 ∧
    (List.range VERTICES.length).map
        (fun i => readVertex mem pos_offset co i) =
      VERTICES.map some := by
  have h8 : color_offset = some 8 := rfl
  rw [h8] at hco
  injection hco with hco
  subst hco
  have hmem : mem = VERTICES.flatMap vertexWords := by
    unfold create_vertex_buffer at hok
    cases hcb : create_buffer env.buffer physNull bits
        HOST_VISIBLE_COHERENT memTypes with
    | error e => rw [hcb] at hok; cases hok
    | ok u =>
      rw [hcb] at hok
      injection hok with h
      exact h.symm
  subst hmem
  exact ⟨rfl, rfl, rfl⟩

/-- C7, witness: the theorem applied to a run in which every Vulkan call
    succeeds, with the color offset computed by color_offset. -/
theorem C7_vertex_copy_witness :
    VERTICES.length = 3 ∧
    (VERTICES.flatMap vertexWords).length = VERTICES.length * 5 ∧
    (List.range VERTICES.length).map
        (fun i =>
          readVertex (VERTICES.flatMap vertexWords) pos_offset 8 i) =
      VERTICES.map some :=
  C7_vertex_copy ⟨⟨0, 0, 0⟩, 0⟩ false 1 [6] _ 8 rfl rfl

end VulkanRust
